import Mathlib

/-!
Verification of the snack-forge nutrition backend.

The development shallowly embeds, in Lean over exact rational arithmetic,
the parts of the Python backend that the checked properties concern:

* `backend/services/nutrition_service.py` — `NutritionService.calculate_snack_nutrition`
  and its helpers (`_initialize_nutrition_totals`, `_empty_nutrition`,
  `_calculate_macros`, `_calculate_glycemic_load`,
  `_calculate_sustainability_score`, `_generate_nutritional_highlights`,
  `_generate_recommendations`);
* `backend/models/health_scorer.py` — the feature-vector construction inside
  `HealthScorer.predict_health_score`;
* `backend/models/ingredient_embeddings.py` — the static ingredient catalog
  from `_generate_ingredient_database` and the filtering logic of
  `suggest_substitutions`;
* `backend/services/ai_service.py` — `AIService._fallback_improvements`.

Python dicts keyed by strings are modelled as association lists
`List (String × ℚ)` in insertion order; Python floats are idealized as exact
rationals; `round(x, 1)` is modelled as exact round-half-to-even (the
semantics of Python 3 rounding, without float representation error).  The
trained random-forest health model is external learned state and is modelled
as an arbitrary function parameter `scorer`; every theorem about the
aggregation pipeline holds for every such function, hence for the real model.
-/

/-- Python 3 `round(y)` to an integer: round half to even.
`⌊y⌋` when the fractional part is below one half, `⌊y⌋ + 1` when above,
and the even neighbour on a tie. -/
def pyRoundInt (y : ℚ) : ℤ :=
  if y - ⌊y⌋ < 1/2 then ⌊y⌋
  else if 1/2 < y - ⌊y⌋ then ⌊y⌋ + 1
  else if ⌊y⌋ % 2 = 0 then ⌊y⌋ else ⌊y⌋ + 1

/-- Python `round(q, 1)`: round half to even at one decimal place. -/
def round1 (q : ℚ) : ℚ := (pyRoundInt (q * 10) : ℚ) / 10

/-- Model of the Python format specifier `:.1f` (one decimal place).
Only determinism and well-definedness of the produced string matter to the
checked properties, not its exact spelling. -/
def fmt1 (q : ℚ) : String :=
  let n := pyRoundInt (q * 10)
  toString (n / 10) ++ "." ++ toString (n % 10)

/-- Model of the Python format specifier `:.0f`. -/
def fmt0 (q : ℚ) : String := toString (pyRoundInt q)

/-- Python `d[k]` on a string-keyed dict of numbers.  In the embedded code
this access is only performed on keys the dict is known to hold, so the
default `0` branch is unreachable there. -/
def dictGet (d : List (String × ℚ)) (k : String) : ℚ :=
  (List.lookup k d).getD 0

/-- Python `d.get(k, v)` on a string-keyed dict of numbers. -/
def dictGetD (d : List (String × ℚ)) (k : String) (v : ℚ) : ℚ :=
  (List.lookup k d).getD v

/-- Python `d[k] += v` on a string-keyed dict.  Python raises `KeyError`
when the key is absent; in the embedded pipeline the key set of every
catalog nutrition record is contained in the accumulator keys, so the
absent case (a no-op here) is unreachable. -/
def dictAdd (d : List (String × ℚ)) (k : String) (v : ℚ) : List (String × ℚ) :=
  d.map (fun p => if p.1 = k then (p.1, p.2 + v) else p)

/-- One line of a recipe: `{"name": ..., "amount_g": ...}`. -/
structure RecipeLine where
  name : String
  amount_g : ℚ
deriving DecidableEq, Repr

/-- One record of the ingredient catalog
(`IngredientEmbeddings._generate_ingredient_database`).  The fields
`flavor_profile`, `texture`, `color` and `description` are used only by the
text-embedding collaborator and are omitted.  `nutrition` and `properties`
are kept as association lists, in source order. -/
structure IngredientRecord where
  category : String
  nutrition : List (String × ℚ)
  properties : List (String × ℚ)
  allergens : List String
deriving DecidableEq, Repr

/-- One entry of the `ingredient_breakdown` list built by
`calculate_snack_nutrition`. -/
structure BreakdownEntry where
  name : String
  amount_g : ℚ
  nutrition : List (String × ℚ)
  properties : List (String × ℚ)
  category : String
deriving DecidableEq, Repr

/-- Output of `HealthScorer.predict_health_score` as consumed by
`calculate_snack_nutrition` (the feature-importance map is not read there).
The trained model itself is external learned state; the pipeline theorems
quantify over an arbitrary scorer function. -/
structure HealthAnalysis where
  health_score : ℚ
  confidence : ℚ
  explanation : String
deriving DecidableEq, Repr

/-- The dict returned by `NutritionService.calculate_snack_nutrition`. -/
structure NutritionResult where
  nutrition_per_serving : List (String × ℚ)
  nutrition_per_100g : List (String × ℚ)
  total_weight_g : ℚ
  health_score : ℚ
  health_confidence : ℚ
  health_explanation : String
  macros : List (String × ℚ)
  allergens : List String
  glycemic_load : ℚ
  sustainability_score : ℚ
  ingredient_breakdown : List BreakdownEntry
  nutritional_highlights : List String
  recommendations : List String
deriving DecidableEq, Repr

/-- `NutritionService._initialize_nutrition_totals`. -/
def nutrition_totals_init : List (String × ℚ) :=
  [("calories_per_100g", 0),
   ("protein_g", 0),
   ("total_fat_g", 0),
   ("saturated_fat_g", 0),
   ("carbohydrates_g", 0),
   ("sugars_g", 0),
   ("fiber_g", 0),
   ("sodium_mg", 0),
   ("potassium_mg", 0),
   ("vitamin_c_mg", 0),
   ("calcium_mg", 0),
   ("iron_mg", 0)]

/-- `NutritionService._empty_nutrition`: the zeroed analysis returned for an
empty ingredient list.  Note its `macros` dict has only the three percent
keys, while the main path returns six keys. -/
def empty_nutrition : NutritionResult :=
  { nutrition_per_serving := nutrition_totals_init
    nutrition_per_100g := nutrition_totals_init
    total_weight_g := 0
    health_score := 0
    health_confidence := 0
    health_explanation := "No ingredients provided"
    macros := [("protein_percent", 0), ("carb_percent", 0), ("fat_percent", 0)]
    allergens := []
    glycemic_load := 0
    sustainability_score := 0
    ingredient_breakdown := []
    nutritional_highlights := []
    recommendations := [] }

/-- `NutritionService._calculate_macros`, applied to the per-serving totals. -/
def calculate_macros (nutrition : List (String × ℚ)) : List (String × ℚ) :=
  let protein_calories := dictGet nutrition "protein_g" * 4
  let carb_calories := dictGet nutrition "carbohydrates_g" * 4
  let fat_calories := dictGet nutrition "total_fat_g" * 9
  let total_calories := max (protein_calories + carb_calories + fat_calories) 1
  [("protein_percent", round1 (protein_calories / total_calories * 100)),
   ("carb_percent", round1 (carb_calories / total_calories * 100)),
   ("fat_percent", round1 (fat_calories / total_calories * 100)),
   ("protein_calories", protein_calories),
   ("carb_calories", carb_calories),
   ("fat_calories", fat_calories)]

/-- `NutritionService._calculate_glycemic_load`.  The `total_weight`
parameter is accepted and ignored, exactly as in the source.  A breakdown
entry lacking `carbohydrates_g` counts as 0 carbs, and one lacking
`glycemic_index` uses the default moderate GI of 50. -/
def calculate_glycemic_load (ingredients : List BreakdownEntry) (total_weight : ℚ) : ℚ :=
  let _ := total_weight
  let total_gl := ingredients.foldl
    (fun acc ing =>
      let carbs := dictGetD ing.nutrition "carbohydrates_g" 0
      let gi := dictGetD ing.properties "glycemic_index" 50
      acc + gi * carbs / 100) 0
  round1 total_gl

/-- `NutritionService._calculate_sustainability_score`. -/
def calculate_sustainability_score (ingredients : List BreakdownEntry) : ℚ :=
  if ingredients = [] then 0
  else
    let acc := ingredients.foldl
      (fun (acc : ℚ × ℚ) ing =>
        (acc.1 + dictGetD ing.properties "sustainability_score" (1/2) * ing.amount_g,
         acc.2 + ing.amount_g)) (0, 0)
    round1 (acc.1 / max acc.2 1 * 100)

/-- `NutritionService._generate_nutritional_highlights`, applied to the
per-100g totals and the breakdown list.  The highlight strings are built in
source order and capped at five. -/
def generate_nutritional_highlights (nutrition : List (String × ℚ))
    (ingredients : List BreakdownEntry) : List String :=
  let protein := dictGetD nutrition "protein_g" 0
  let h_protein :=
    if protein > 20 then ["Excellent protein source (" ++ fmt1 protein ++ "g per 100g)"]
    else if protein > 10 then ["Good protein content (" ++ fmt1 protein ++ "g per 100g)"]
    else []
  let fiber := dictGetD nutrition "fiber_g" 0
  let h_fiber :=
    if fiber > 15 then ["Very high fiber content (" ++ fmt1 fiber ++ "g per 100g)"]
    else if fiber > 8 then ["High fiber content (" ++ fmt1 fiber ++ "g per 100g)"]
    else if fiber > 3 then ["Good fiber source (" ++ fmt1 fiber ++ "g per 100g)"]
    else []
  let sugar := dictGetD nutrition "sugars_g" 0
  let h_sugar :=
    if sugar < 5 then ["Low sugar content"]
    else if sugar > 25 then ["High sugar content (" ++ fmt1 sugar ++ "g per 100g)"]
    else []
  let antioxidant_ingredients :=
    ingredients.filter (fun ing => decide (dictGetD ing.properties "antioxidant_score" 0 > 70))
  let h_antioxidant :=
    if antioxidant_ingredients ≠ [] then
      ["Rich in antioxidants from " ++
        String.intercalate ", " (antioxidant_ingredients.map (·.name))]
    else []
  let healthy_fat_ingredients :=
    ingredients.filter (fun ing =>
      ing.category == "nuts_seeds" &&
      decide (dictGetD ing.properties "processing_level" 5 ≤ 2))
  let h_fat :=
    if healthy_fat_ingredients ≠ [] then ["Contains healthy unsaturated fats"] else []
  let iron := dictGetD nutrition "iron_mg" 0
  let calcium := dictGetD nutrition "calcium_mg" 0
  let potassium := dictGetD nutrition "potassium_mg" 0
  let h_iron := if iron > 5 then ["Good source of iron (" ++ fmt1 iron ++ "mg per 100g)"] else []
  let h_calcium :=
    if calcium > 100 then ["Good source of calcium (" ++ fmt0 calcium ++ "mg per 100g)"] else []
  let h_potassium :=
    if potassium > 500 then ["High in potassium (" ++ fmt0 potassium ++ "mg per 100g)"] else []
  (h_protein ++ h_fiber ++ h_sugar ++ h_antioxidant ++ h_fat ++
    h_iron ++ h_calcium ++ h_potassium).take 5

/-- `NutritionService._generate_recommendations`, applied to the per-100g
totals and the breakdown list; capped at four entries. -/
def generate_recommendations (nutrition : List (String × ℚ))
    (ingredients : List BreakdownEntry) : List String :=
  let protein := dictGetD nutrition "protein_g" 0
  let r_protein :=
    if protein < 8 then
      ["Consider adding protein powder, nuts, or seeds to increase protein content"]
    else []
  let fiber := dictGetD nutrition "fiber_g" 0
  let r_fiber :=
    if fiber < 3 then ["Add more fiber with chia seeds, flax seeds, or oats"] else []
  let sugar := dictGetD nutrition "sugars_g" 0
  let r_sugar :=
    if sugar > 20 then
      ["Consider reducing added sweeteners or using lower-sugar alternatives like stevia"]
    else []
  let sodium := dictGetD nutrition "sodium_mg" 0
  let r_sodium :=
    if sodium > 400 then ["Consider reducing sodium content for better heart health"] else []
  let high_processing :=
    ingredients.filter (fun ing => decide (dictGetD ing.properties "processing_level" 0 > 3))
  let r_processing :=
    if (high_processing.length : ℚ) > (ingredients.length : ℚ) * (1/2) then
      ["Try incorporating more whole food ingredients to reduce processing"]
    else []
  let antioxidant_total :=
    (ingredients.map (fun ing => dictGetD ing.properties "antioxidant_score" 0)).sum /
      max (ingredients.length : ℚ) 1
  let r_antioxidant :=
    if antioxidant_total < 50 then
      ["Add berries, dark chocolate, or cinnamon to boost antioxidant content"]
    else []
  let macros := calculate_macros nutrition
  let r_balance :=
    if dictGet macros "fat_percent" > 60 then
      ["Consider adding more protein or complex carbs to balance macronutrients"]
    else if dictGet macros "carb_percent" > 70 then
      ["Add healthy fats or protein to slow sugar absorption"]
    else []
  (r_protein ++ r_fiber ++ r_sugar ++ r_sodium ++ r_processing ++
    r_antioxidant ++ r_balance).take 4

/-- The running state of the accumulation loop inside
`calculate_snack_nutrition`. -/
structure LoopState where
  total_nutrition : List (String × ℚ)
  total_weight : ℚ
  ingredient_details : List BreakdownEntry
  allergens : List String
deriving DecidableEq, Repr

/-- `allergens.update(...)` on the running allergen collection.  Python uses
a `set`, whose iteration order is unspecified; the embedding determinizes it
to first-insertion order, which is immaterial to every checked property. -/
def addAllergens (acc : List String) (new : List String) : List String :=
  new.foldl (fun a x => if x ∈ a then a else a ++ [x]) acc

/-- One iteration of the loop in `calculate_snack_nutrition`: look the line
up by lowercased name; on a miss skip the line entirely (the source logs a
warning and `continue`s); on a hit accumulate the scaled contribution,
record the breakdown entry, union the allergens and add the weight. -/
def processLine (db : List (String × IngredientRecord)) (s : LoopState)
    (line : RecipeLine) : LoopState :=
  let name := line.name.toLower
  match List.lookup name db with
  | none => s
  | some data =>
    let multiplier := line.amount_g / 100
    let ingredient_nutrition := data.nutrition.map (fun p => (p.1, p.2 * multiplier))
    { total_nutrition :=
        ingredient_nutrition.foldl (fun t p => dictAdd t p.1 p.2) s.total_nutrition
      total_weight := s.total_weight + line.amount_g
      ingredient_details := s.ingredient_details ++
        [{ name := name, amount_g := line.amount_g, nutrition := ingredient_nutrition,
           properties := data.properties, category := data.category }]
      allergens := addAllergens s.allergens data.allergens }

/-- The whole accumulation loop, threading the state left to right. -/
def processLines (db : List (String × IngredientRecord)) (s : LoopState) :
    List RecipeLine → LoopState
  | [] => s
  | line :: rest => processLines db (processLine db s line) rest

/-- `NutritionService.calculate_snack_nutrition`.  `db` is the loaded
ingredient database and `scorer` stands for
`HealthScorer.predict_health_score` on the trained model (external learned
state); the pipeline theorems hold for every scorer function.  The function
is total: no input raises. -/
def calculate_snack_nutrition (db : List (String × IngredientRecord))
    (scorer : List (String × ℚ) → HealthAnalysis)
    (ingredients : List RecipeLine) : NutritionResult :=
  if ingredients = [] then empty_nutrition
  else
    let st := processLines db ⟨nutrition_totals_init, 0, [], []⟩ ingredients
    let nutrition_per_serving := st.total_nutrition
    let nutrition_per_100g :=
      if st.total_weight > 0 then
        st.total_nutrition.map (fun p => (p.1, p.2 / st.total_weight * 100))
      else st.total_nutrition
    let health_analysis := scorer nutrition_per_100g
    { nutrition_per_serving := nutrition_per_serving
      nutrition_per_100g := nutrition_per_100g
      total_weight_g := st.total_weight
      health_score := health_analysis.health_score
      health_confidence := health_analysis.confidence
      health_explanation := health_analysis.explanation
      macros := calculate_macros nutrition_per_serving
      allergens := st.allergens
      glycemic_load := calculate_glycemic_load st.ingredient_details st.total_weight
      sustainability_score := calculate_sustainability_score st.ingredient_details
      ingredient_breakdown := st.ingredient_details
      nutritional_highlights := generate_nutritional_highlights nutrition_per_100g st.ingredient_details
      recommendations := generate_recommendations nutrition_per_100g st.ingredient_details }

/-- Builds a catalog `nutrition` dict with the 12 standard keys in source
order. -/
def mkNutrition (calories protein fat sat carbs sugars fiber sodium potassium
    vitc calcium iron : ℚ) : List (String × ℚ) :=
  [("calories_per_100g", calories),
   ("protein_g", protein),
   ("total_fat_g", fat),
   ("saturated_fat_g", sat),
   ("carbohydrates_g", carbs),
   ("sugars_g", sugars),
   ("fiber_g", fiber),
   ("sodium_mg", sodium),
   ("potassium_mg", potassium),
   ("vitamin_c_mg", vitc),
   ("calcium_mg", calcium),
   ("iron_mg", iron)]

/-- Builds a catalog `properties` dict with the 8 standard keys in source
order. -/
def mkProperties (gi antiox proc additives preserv allergen_count organic
    sustainability : ℚ) : List (String × ℚ) :=
  [("glycemic_index", gi),
   ("antioxidant_score", antiox),
   ("processing_level", proc),
   ("artificial_additives", additives),
   ("preservatives", preserv),
   ("allergen_count", allergen_count),
   ("organic_score", organic),
   ("sustainability_score", sustainability)]

/-- The static ingredient catalog generated by
`IngredientEmbeddings._generate_ingredient_database` (and persisted as
`data/ingredients.json`, the database `NutritionService` loads).  Values are
transcribed verbatim from the source. -/
def ingredient_database : List (String × IngredientRecord) :=
  [("almonds",
    { category := "nuts_seeds",
      nutrition := mkNutrition 579 21.15 49.93 3.8 21.55 4.35 12.5 1 733 0 269 3.71,
      properties := mkProperties 15 65 1 0 0 1 0.8 0.7,
      allergens := ["tree_nuts"] }),
   ("walnuts",
    { category := "nuts_seeds",
      nutrition := mkNutrition 654 15.23 65.21 6.13 13.71 2.61 6.7 2 441 1.3 98 2.91,
      properties := mkProperties 15 85 1 0 0 1 0.8 0.6,
      allergens := ["tree_nuts"] }),
   ("cashews",
    { category := "nuts_seeds",
      nutrition := mkNutrition 553 18.22 43.85 7.78 30.19 5.91 3.3 12 660 0.5 37 6.68,
      properties := mkProperties 25 45 1 0 0 1 0.7 0.5,
      allergens := ["tree_nuts"] }),
   ("dates",
    { category := "fruits",
      nutrition := mkNutrition 277 1.81 0.15 0.03 74.97 66.47 6.7 1 696 0 64 0.9,
      properties := mkProperties 55 70 1 0 0 0 0.9 0.8,
      allergens := [] }),
   ("cranberries_dried",
    { category := "fruits",
      nutrition := mkNutrition 308 0.17 1.09 0.2 82.8 72.56 5.3 2 49 1.1 7 0.35,
      properties := mkProperties 45 95 2 0 1 0 0.6 0.7,
      allergens := [] }),
   ("dark_chocolate_70",
    { category := "chocolate",
      nutrition := mkNutrition 546 7.87 31.28 18.52 45.9 24 10.9 24 715 0 70 11.9,
      properties := mkProperties 25 90 3 0 0 2 0.7 0.4,
      allergens := ["milk", "soy"] }),
   ("oats",
    { category := "grains",
      nutrition := mkNutrition 389 16.89 6.9 1.22 66.27 0.99 10.6 2 429 0 54 4.72,
      properties := mkProperties 40 55 2 0 0 1 0.8 0.9,
      allergens := ["gluten"] }),
   ("quinoa",
    { category := "grains",
      nutrition := mkNutrition 368 14.12 6.07 0.71 64.16 4.57 7 5 563 0 47 4.57,
      properties := mkProperties 35 70 1 0 0 0 0.9 0.8,
      allergens := [] }),
   ("protein_powder_whey",
    { category := "protein",
      nutrition := mkNutrition 413 82 2.5 1.5 8 6 0 380 200 0 600 2,
      properties := mkProperties 30 20 4 2 1 1 0.3 0.3,
      allergens := ["milk"] }),
   ("protein_powder_plant",
    { category := "protein",
      nutrition := mkNutrition 380 75 8 2 12 3 8 200 400 0 150 8,
      properties := mkProperties 25 60 4 1 1 0 0.7 0.8,
      allergens := [] }),
   ("chia_seeds",
    { category := "nuts_seeds",
      nutrition := mkNutrition 486 16.54 30.74 3.33 42.12 0 34.4 16 407 1.6 631 7.72,
      properties := mkProperties 30 80 1 0 0 0 0.9 0.9,
      allergens := [] }),
   ("flax_seeds",
    { category := "nuts_seeds",
      nutrition := mkNutrition 534 18.29 42.16 3.66 28.88 1.55 27.3 30 813 0.6 255 5.73,
      properties := mkProperties 35 85 1 0 0 0 0.9 0.9,
      allergens := [] }),
   ("honey",
    { category := "sweeteners",
      nutrition := mkNutrition 304 0.3 0 0 82.4 82.12 0.2 4 52 0.5 6 0.42,
      properties := mkProperties 55 60 1 0 0 0 0.8 0.7,
      allergens := [] }),
   ("maple_syrup",
    { category := "sweeteners",
      nutrition := mkNutrition 260 0.04 0.06 0.01 67.04 60.46 0 12 212 0 102 0.11,
      properties := mkProperties 54 70 2 0 0 0 0.8 0.8,
      allergens := [] }),
   ("coconut_flakes",
    { category := "coconut",
      nutrition := mkNutrition 660 6.88 64.53 57.21 23.65 7.35 16.3 20 543 3.3 14 2.43,
      properties := mkProperties 35 50 2 0 1 0 0.7 0.6,
      allergens := [] }),
   ("blueberries_dried",
    { category := "fruits",
      nutrition := mkNutrition 317 1.39 1.28 0.23 84.21 70.35 8.8 3 70 3.6 18 0.7,
      properties := mkProperties 40 100 2 0 1 0 0.8 0.8,
      allergens := [] }),
   ("cinnamon",
    { category := "spices",
      nutrition := mkNutrition 247 3.99 1.24 0.35 80.59 2.17 53.1 10 431 3.8 1002 8.32,
      properties := mkProperties 5 95 1 0 0 0 0.9 0.7,
      allergens := [] }),
   ("vanilla_extract",
    { category := "flavorings",
      nutrition := mkNutrition 288 0.06 0.06 0.01 12.65 12.65 0 9 148 0 11 0.12,
      properties := mkProperties 5 40 3 0 0 0 0.6 0.5,
      allergens := [] })]

/-- A concrete health-scorer instantiation used by closed witnesses and
counterexamples; it stands in for the trained model, about which the
pipeline theorems are parametric. -/
def testScorer : List (String × ℚ) → HealthAnalysis := fun _ => ⟨0, 0, ""⟩

/-- `HealthScorer.feature_names`: the fixed 20-feature order. -/
def feature_names : List String :=
  ["calories_per_100g",
   "protein_g",
   "total_fat_g",
   "saturated_fat_g",
   "carbohydrates_g",
   "sugars_g",
   "fiber_g",
   "sodium_mg",
   "potassium_mg",
   "vitamin_c_mg",
   "calcium_mg",
   "iron_mg",
   "glycemic_index",
   "antioxidant_score",
   "processing_level",
   "artificial_additives",
   "preservatives",
   "allergen_count",
   "organic_score",
   "sustainability_score"]

/-- The `defaults` dict inside `HealthScorer.predict_health_score`. -/
def feature_defaults : List (String × ℚ) :=
  [("glycemic_index", 50),
   ("antioxidant_score", 20),
   ("processing_level", 3),
   ("artificial_additives", 0),
   ("preservatives", 0),
   ("allergen_count", 0),
   ("organic_score", 0.5),
   ("sustainability_score", 0.5)]

/-- The feature-vector construction loop of
`HealthScorer.predict_health_score`: for each feature name in order, take
the value from the input when present, otherwise `defaults.get(name, 0)`. -/
def build_feature_vector (nutrition_data : List (String × ℚ)) : List ℚ :=
  feature_names.map (fun feature_name =>
    match List.lookup feature_name nutrition_data with
    | some v => v
    | none => (List.lookup feature_name feature_defaults).getD 0)

/-- Modelled from the spec (§4.2, claim C8 wording): the documented default
for each of the 8 quality features, 0 for the 12 core nutrition fields.
Compared against the defaults actually applied by `build_feature_vector`. -/
def specFeatureDefault : String → ℚ
  | "glycemic_index" => 50
  | "antioxidant_score" => 20
  | "processing_level" => 3
  | "artificial_additives" => 0
  | "preservatives" => 0
  | "allergen_count" => 0
  | "organic_score" => 0.5
  | "sustainability_score" => 0.5
  | _ => 0

/-- An entry of the ranked list returned by
`IngredientEmbeddings.suggest_substitutions`.  The presentational fields
`reason` and `nutrition_comparison` (generated strings) are omitted; the
checked property concerns which candidates are returned. -/
structure SubstitutionSuggestion where
  name : String
  similarity : ℚ
deriving DecidableEq, Repr

/-- One arm of the dietary-restriction check inside
`IngredientEmbeddings.suggest_substitutions`: whether `restriction` sets
`skip = True` for a candidate with catalog record `data`.  The source
recognizes exactly `vegan`, `gluten_free`, `nut_free` (any allergen
containing the substring `nut`, tested here via `splitOn`) and `low_sugar`;
every other restriction string, `dairy_free` included, matches no branch
and filters nothing. -/
def restriction_skips (data : IngredientRecord) (restriction : String) : Bool :=
  if restriction == "vegan" then
    data.allergens.any (fun allergen => allergen == "milk" || allergen == "eggs")
  else if restriction == "gluten_free" then
    data.allergens.contains "gluten"
  else if restriction == "nut_free" then
    data.allergens.any (fun allergen => (allergen.splitOn "nut").length != 1)
  else if restriction == "low_sugar" then
    decide (dictGet data.nutrition "sugars_g" > 20)
  else false

/-- `IngredientEmbeddings.suggest_substitutions`, parametric in the output
`similar_ingredients` of `find_similar_ingredients` (cosine similarity over
sentence-transformer embeddings — external learned state; it returns only
catalog keys, with the queried ingredient excluded, so the `none` branch
below is unreachable from the source call sites).  A candidate is kept when
no requested restriction sets `skip`; the first five survivors are
returned. -/
def suggest_substitutions (db : List (String × IngredientRecord))
    (similar_ingredients : List (String × ℚ))
    (dietary_restrictions : List String) : List SubstitutionSuggestion :=
  (similar_ingredients.filterMap (fun p =>
    match List.lookup p.1 db with
    | none => none
    | some data =>
      if dietary_restrictions.any (restriction_skips data) then none
      else some ⟨p.1, p.2⟩)).take 5

/-- A suggested change produced by `AIService._fallback_improvements`:
either an addition or a substitution, with its reason string. -/
inductive SuggestedChange where
  | add (ingredient : String) (amount_g : ℚ) (reason : String)
  | substitute (original : String) (replacement : String) (reason : String)
deriving DecidableEq, Repr

/-- The dict returned by `AIService._fallback_improvements`. -/
structure ImprovementResult where
  suggested_changes : List SuggestedChange
  expected_improvements : List String
  estimated_new_score : ℚ
deriving DecidableEq, Repr

/-- `AIService._fallback_improvements`: the deterministic recipe-improvement
path taken when no AI collaborator is used. -/
def fallback_improvements (nutrition : NutritionResult) (goals : List String) :
    ImprovementResult :=
  let protein := dictGetD nutrition.nutrition_per_100g "protein_g" 0
  let fiber := dictGetD nutrition.nutrition_per_100g "fiber_g" 0
  let sugar := dictGetD nutrition.nutrition_per_100g "sugars_g" 0
  let s_protein :=
    if goals.contains "increase_protein" && decide (protein < 15) then
      [SuggestedChange.add "protein_powder_plant" 20 "Boost protein content for muscle support"]
    else []
  let s_fiber :=
    if goals.contains "increase_fiber" && decide (fiber < 8) then
      [SuggestedChange.add "chia_seeds" 15 "Add fiber for digestive health"]
    else []
  let s_sugar :=
    if goals.contains "reduce_sugar" && decide (sugar > 20) then
      [SuggestedChange.substitute "honey" "stevia" "Reduce sugar content while maintaining sweetness"]
    else []
  { suggested_changes := s_protein ++ s_fiber ++ s_sugar
    expected_improvements := goals.map (fun goal => "Addresses " ++ goal)
    estimated_new_score := min (nutrition.health_score + 10) 100 }

/-! ### Helper lemmas -/

lemma string_toLower_eq (s : String) : s.toLower = ⟨s.data.map Char.toLower⟩ :=
  String.map_eq Char.toLower s

lemma lower_almonds : "almonds".toLower = "almonds" := by
  rw [string_toLower_eq]; decide

lemma lower_oats : "oats".toLower = "oats" := by
  rw [string_toLower_eq]; decide

lemma lower_vanilla : "vanilla_extract".toLower = "vanilla_extract" := by
  rw [string_toLower_eq]; decide

lemma lower_unobtainium : "unobtainium".toLower = "unobtainium" := by
  rw [string_toLower_eq]; decide

lemma pyRoundInt_ge_floor (y : ℚ) : ⌊y⌋ ≤ pyRoundInt y := by
  unfold pyRoundInt; split_ifs <;> omega

lemma pyRoundInt_le_floor_add_one (y : ℚ) : pyRoundInt y ≤ ⌊y⌋ + 1 := by
  unfold pyRoundInt; split_ifs <;> omega

lemma pyRoundInt_err (y : ℚ) : |(pyRoundInt y : ℚ) - y| ≤ 1/2 := by
  have h1 := Int.floor_le y
  have h2 := Int.lt_floor_add_one y
  unfold pyRoundInt
  split_ifs with hf hg hp
  all_goals rw [abs_le]
  all_goals constructor
  all_goals push_cast
  all_goals linarith

lemma pyRoundInt_mono {x y : ℚ} (h : x ≤ y) : pyRoundInt x ≤ pyRoundInt y := by
  have hf : ⌊x⌋ ≤ ⌊y⌋ := Int.floor_le_floor h
  rcases eq_or_lt_of_le hf with heq | hlt
  · have hxy : x - (⌊x⌋ : ℚ) ≤ y - (⌊x⌋ : ℚ) := by linarith
    unfold pyRoundInt
    rw [← heq]
    split_ifs <;> first | omega | (exfalso; linarith)
  · have h1 := pyRoundInt_le_floor_add_one x
    have h2 := pyRoundInt_ge_floor y
    omega

lemma round1_mono {x y : ℚ} (h : x ≤ y) : round1 x ≤ round1 y := by
  unfold round1
  have h10 : pyRoundInt (x * 10) ≤ pyRoundInt (y * 10) :=
    pyRoundInt_mono (by linarith)
  have h10q : ((pyRoundInt (x * 10) : ℤ) : ℚ) ≤ ((pyRoundInt (y * 10) : ℤ) : ℚ) := by
    exact_mod_cast h10
  linarith

lemma round1_err (q : ℚ) : |round1 q - q| ≤ 1/20 := by
  have h := pyRoundInt_err (q * 10)
  have heq : round1 q - q = ((pyRoundInt (q * 10) : ℚ) - q * 10) / 10 := by
    unfold round1; ring
  rw [heq, abs_div]
  rw [show |(10 : ℚ)| = 10 by norm_num]
  linarith

lemma lookup_map_snd (k : String) (f : ℚ → ℚ) (l : List (String × ℚ)) :
    List.lookup k (l.map (fun p => (p.1, f p.2))) = (List.lookup k l).map f := by
  induction l with
  | nil => rfl
  | cons a rest ih =>
    simp only [List.map_cons, List.lookup]
    cases k == a.1 <;> simp [ih]

lemma lookup_some_mem {l : List (String × IngredientRecord)} {k : String}
    {d : IngredientRecord} (h : List.lookup k l = some d) : ∃ p ∈ l, p.2 = d := by
  induction l with
  | nil => simp [List.lookup] at h
  | cons a rest ih =>
    rw [List.lookup] at h
    cases hk : k == a.1 with
    | true => rw [hk] at h; exact ⟨a, by simp, Option.some.inj h⟩
    | false =>
      rw [hk] at h
      obtain ⟨p, hp, hpd⟩ := ih h
      exact ⟨p, by simp [hp], hpd⟩

lemma lookup_append_of_none {k : String} {l1 : List (String × ℚ)}
    (l2 : List (String × ℚ)) (h : List.lookup k l1 = none) :
    List.lookup k (l1 ++ l2) = List.lookup k l2 := by
  induction l1 with
  | nil => rfl
  | cons a rest ih =>
    rw [List.lookup] at h
    rw [List.cons_append, List.lookup]
    cases hk : k == a.1 with
    | true => rw [hk] at h; cases h
    | false => rw [hk] at h; exact ih h

lemma processLine_skip (db : List (String × IngredientRecord)) (s : LoopState)
    (line : RecipeLine) (h : List.lookup line.name.toLower db = none) :
    processLine db s line = s := by
  simp only [processLine, h]

lemma processLines_append (db : List (String × IngredientRecord))
    (l1 l2 : List RecipeLine) : ∀ s : LoopState,
    processLines db s (l1 ++ l2) = processLines db (processLines db s l1) l2 := by
  induction l1 with
  | nil => intro s; rfl
  | cons a rest ih =>
    intro s
    rw [List.cons_append]
    show processLines db (processLine db s a) (rest ++ l2) = _
    rw [ih]
    rfl

/-- The breakdown entry a single line contributes: `none` when the
lowercased name misses the database. -/
def entryOf (db : List (String × IngredientRecord)) (line : RecipeLine) :
    Option BreakdownEntry :=
  (List.lookup line.name.toLower db).map (fun data =>
    { name := line.name.toLower, amount_g := line.amount_g,
      nutrition := data.nutrition.map (fun p => (p.1, p.2 * (line.amount_g / 100))),
      properties := data.properties, category := data.category })

lemma processLines_details (db : List (String × IngredientRecord))
    (lines : List RecipeLine) : ∀ s : LoopState,
    (processLines db s lines).ingredient_details =
      s.ingredient_details ++ lines.filterMap (entryOf db) := by
  induction lines with
  | nil => intro s; simp [processLines]
  | cons a rest ih =>
    intro s
    show (processLines db (processLine db s a) rest).ingredient_details = _
    rw [ih]
    unfold processLine entryOf
    cases h : List.lookup a.name.toLower db with
    | none => simp [List.filterMap_cons, h]
    | some data => simp [List.filterMap_cons, h]

/-- The glycemic-load contribution of one breakdown entry, as summed by
`_calculate_glycemic_load`. -/
def glTerm (e : BreakdownEntry) : ℚ :=
  dictGetD e.properties "glycemic_index" 50 * dictGetD e.nutrition "carbohydrates_g" 0 / 100

lemma glFold (l : List BreakdownEntry) : ∀ acc : ℚ,
    l.foldl (fun acc ing =>
      acc + dictGetD ing.properties "glycemic_index" 50 *
        dictGetD ing.nutrition "carbohydrates_g" 0 / 100) acc =
      acc + (l.map glTerm).sum := by
  induction l with
  | nil => intro acc; simp
  | cons a rest ih =>
    intro acc
    rw [List.foldl_cons, ih, List.map_cons, List.sum_cons]
    unfold glTerm
    ring

lemma calculate_glycemic_load_eq (l : List BreakdownEntry) (t : ℚ) :
    calculate_glycemic_load l t = round1 ((l.map glTerm).sum) := by
  unfold calculate_glycemic_load
  rw [glFold]
  ring_nf

lemma sustainability_foldl (l : List BreakdownEntry) : ∀ a b : ℚ,
    l.foldl (fun (acc : ℚ × ℚ) ing =>
      (acc.1 + dictGetD ing.properties "sustainability_score" (1/2) * ing.amount_g,
       acc.2 + ing.amount_g)) (a, b) =
      (a + (l.map (fun e => dictGetD e.properties "sustainability_score" (1/2) * e.amount_g)).sum,
       b + (l.map (fun e => e.amount_g)).sum) := by
  induction l with
  | nil => intro a b; simp
  | cons x rest ih =>
    intro a b
    rw [List.foldl_cons, ih, List.map_cons, List.sum_cons, List.map_cons, List.sum_cons]
    simp only [Prod.mk.injEq]
    constructor <;> ring

lemma sustainability_spec (l : List BreakdownEntry) :
    calculate_sustainability_score l =
      if l = [] then 0
      else round1
        ((l.map (fun e => dictGetD e.properties "sustainability_score" (1/2) * e.amount_g)).sum /
          max ((l.map (fun e => e.amount_g)).sum) 1 * 100) := by
  unfold calculate_sustainability_score
  by_cases h : l = []
  · rw [if_pos h, if_pos h]
  · rw [if_neg h, if_neg h, sustainability_foldl]
    simp

/-! ### Claims -/

/-- C1: for every recipe (over any database and any scorer) that is
non-empty and whose looked-up total weight is positive,
`nutrition_per_100g` is exactly the per-serving accumulated total divided by
`total_weight_g` and multiplied by 100, entry by entry over all 12 nutrient
fields (the per-100g dict is the image of the per-serving dict under that
scaling, key order preserved). -/
theorem claim_C1 (db : List (String × IngredientRecord))
    (scorer : List (String × ℚ) → HealthAnalysis) (lines : List RecipeLine)
    (hne : lines ≠ [])
    (hw : 0 < (calculate_snack_nutrition db scorer lines).total_weight_g) :
    (calculate_snack_nutrition db scorer lines).nutrition_per_100g =
      (calculate_snack_nutrition db scorer lines).nutrition_per_serving.map
        (fun p => (p.1, p.2 / (calculate_snack_nutrition db scorer lines).total_weight_g * 100)) := by
  unfold calculate_snack_nutrition at hw ⊢
  rw [if_neg hne] at hw ⊢
  dsimp only at hw ⊢
  rw [if_pos hw]

/-- Witness for C1 at the concrete recipe `[almonds 100g]` over the real
catalog. -/
theorem claim_C1_witness :
    (calculate_snack_nutrition ingredient_database testScorer [⟨"almonds", 100⟩]).nutrition_per_100g =
      (calculate_snack_nutrition ingredient_database testScorer [⟨"almonds", 100⟩]).nutrition_per_serving.map
        (fun p => (p.1, p.2 /
          (calculate_snack_nutrition ingredient_database testScorer [⟨"almonds", 100⟩]).total_weight_g * 100)) :=
  claim_C1 ingredient_database testScorer [⟨"almonds", 100⟩] (by simp)
    (by simp [calculate_snack_nutrition, processLines, processLine, ingredient_database,
          mkNutrition, mkProperties, List.lookup, lower_almonds])

/-- C3: `calculate_snack_nutrition` on the empty ingredient list (over any
database and scorer) returns the zeroed analysis: the 12 per-serving and
per-100g sums are all zero, `health_score` is 0, and the breakdown,
allergens, highlights and recommendations are all empty.  The embedded
function is total, so no exception is raised. -/
theorem claim_C3 (db : List (String × IngredientRecord))
    (scorer : List (String × ℚ) → HealthAnalysis) :
    (calculate_snack_nutrition db scorer []).nutrition_per_serving = nutrition_totals_init ∧
    (calculate_snack_nutrition db scorer []).nutrition_per_100g = nutrition_totals_init ∧
    nutrition_totals_init.length = 12 ∧
    (∀ p ∈ nutrition_totals_init, p.2 = 0) ∧
    (calculate_snack_nutrition db scorer []).health_score = 0 ∧
    (calculate_snack_nutrition db scorer []).ingredient_breakdown = [] ∧
    (calculate_snack_nutrition db scorer []).allergens = [] ∧
    (calculate_snack_nutrition db scorer []).nutritional_highlights = [] ∧
    (calculate_snack_nutrition db scorer []).recommendations = [] := by
  refine ⟨rfl, rfl, rfl, ?_, rfl, rfl, rfl, rfl, rfl⟩
  intro p hp
  fin_cases hp <;> rfl

/-- Counterexample for C2 as stated: for the one-line recipe consisting only
of the unknown ingredient `unobtainium`, the result differs from the result
on the list with that line removed (the empty list): the skipped line still
routes the computation through the main path, whose output (scorer-supplied
explanation, six-key macros dict, low-sugar highlight, and more) differs
from the hard-coded `_empty_nutrition` returned for `[]`. -/
theorem claim_C2_counterexample :
    calculate_snack_nutrition ingredient_database testScorer [⟨"unobtainium", 50⟩] ≠
      calculate_snack_nutrition ingredient_database testScorer [] := by
  intro h
  have hm := congrArg NutritionResult.health_explanation h
  simp [calculate_snack_nutrition, processLines, processLine, ingredient_database,
    mkNutrition, mkProperties, List.lookup, lower_unobtainium, empty_nutrition,
    testScorer] at hm

/-- C2 amended: removing a line whose lowercased name misses the database
changes nothing — totals, weight, allergens, breakdown and every derived
field are identical, and no exception is raised — provided at least one
other line remains (so that both computations stay on the same branch;
when the unknown line is the only line, dropping it reaches the distinct
`_empty_nutrition` shortcut instead, as the counterexample shows). -/
theorem claim_C2_amended (db : List (String × IngredientRecord))
    (scorer : List (String × ℚ) → HealthAnalysis)
    (pre post : List RecipeLine) (bad : RecipeLine)
    (hbad : List.lookup bad.name.toLower db = none)
    (hne : pre ++ post ≠ []) :
    calculate_snack_nutrition db scorer (pre ++ bad :: post) =
      calculate_snack_nutrition db scorer (pre ++ post) := by
  have h1 : pre ++ bad :: post ≠ [] := by
    cases pre <;> simp
  have hstate : ∀ s : LoopState,
      processLines db s (pre ++ bad :: post) = processLines db s (pre ++ post) := by
    intro s
    rw [processLines_append, processLines_append]
    show processLines db (processLine db (processLines db s pre) bad) post = _
    rw [processLine_skip db _ bad hbad]
  unfold calculate_snack_nutrition
  rw [if_neg h1, if_neg hne, hstate]

/-- Witness for the amended C2 at `[almonds 100g, unobtainium 5g]` against
`[almonds 100g]` over the real catalog. -/
theorem claim_C2_witness :
    calculate_snack_nutrition ingredient_database testScorer
        ([⟨"almonds", 100⟩] ++ ⟨"unobtainium", 5⟩ :: []) =
      calculate_snack_nutrition ingredient_database testScorer ([⟨"almonds", 100⟩] ++ []) :=
  claim_C2_amended ingredient_database testScorer [⟨"almonds", 100⟩] [] ⟨"unobtainium", 5⟩
    (by simp [lower_unobtainium, ingredient_database, List.lookup]) (by simp)

/-- Counterexample for C4 as stated: for the recipe `[almonds 0.5g]`
(sustainability 0.7, one found line) the claimed value
`round1 ((0.7 * 0.5) / 0.5 * 100) = 70`, but the code divides by
`max(total_weight, 1) = 1` rather than by the total weight `0.5`, returning
35. -/
theorem claim_C4_counterexample :
    (calculate_snack_nutrition ingredient_database testScorer
        [⟨"almonds", 1/2⟩]).sustainability_score ≠
      round1 (0.7 * (1/2) / (1/2) * 100) := by
  have h35 : (calculate_snack_nutrition ingredient_database testScorer
      [⟨"almonds", 1/2⟩]).sustainability_score = 35 := by
    simp [calculate_snack_nutrition, processLines, processLine, ingredient_database,
      mkNutrition, mkProperties, List.lookup, lower_almonds,
      calculate_sustainability_score, dictGetD, round1, pyRoundInt]
    norm_num
  have h70 : round1 (0.7 * (1/2) / (1/2) * 100) = 70 := by
    norm_num [round1, pyRoundInt]
  rw [h35, h70]
  norm_num

/-- C4 amended: the returned `sustainability_score` is 0 when no line is
found, and otherwise equals the amount-weighted sum of the found lines'
per-unit sustainability scores divided by `max(total found weight, 1)` —
not by the total weight itself — scaled to 0-100 and rounded to 1 decimal
(the divisor floor at 1 is what the counterexample exposes; the two agree
whenever the found weight is at least 1 gram). -/
theorem claim_C4_amended (db : List (String × IngredientRecord))
    (scorer : List (String × ℚ) → HealthAnalysis) (lines : List RecipeLine) :
    (calculate_snack_nutrition db scorer lines).sustainability_score =
      if (calculate_snack_nutrition db scorer lines).ingredient_breakdown = [] then 0
      else round1
        (((calculate_snack_nutrition db scorer lines).ingredient_breakdown.map
            (fun e => dictGetD e.properties "sustainability_score" (1/2) * e.amount_g)).sum /
          max (((calculate_snack_nutrition db scorer lines).ingredient_breakdown.map
            (fun e => e.amount_g)).sum) 1 * 100) := by
  by_cases h : lines = []
  · subst h
    simp [calculate_snack_nutrition, empty_nutrition]
  · unfold calculate_snack_nutrition
    rw [if_neg h]
    dsimp only
    exact sustainability_spec _

lemma macros_protein_percent (n : List (String × ℚ)) :
    dictGet (calculate_macros n) "protein_percent" =
      round1 (dictGet n "protein_g" * 4 /
        max (dictGet n "protein_g" * 4 + dictGet n "carbohydrates_g" * 4 +
          dictGet n "total_fat_g" * 9) 1 * 100) := rfl

lemma macros_carb_percent (n : List (String × ℚ)) :
    dictGet (calculate_macros n) "carb_percent" =
      round1 (dictGet n "carbohydrates_g" * 4 /
        max (dictGet n "protein_g" * 4 + dictGet n "carbohydrates_g" * 4 +
          dictGet n "total_fat_g" * 9) 1 * 100) := rfl

lemma macros_fat_percent (n : List (String × ℚ)) :
    dictGet (calculate_macros n) "fat_percent" =
      round1 (dictGet n "total_fat_g" * 9 /
        max (dictGet n "protein_g" * 4 + dictGet n "carbohydrates_g" * 4 +
          dictGet n "total_fat_g" * 9) 1 * 100) := rfl

/-- When the three macro calorie subtotals reach at least 1, the `max(·, 1)`
denominator floor in `_calculate_macros` is inactive and the three rounded
percentages sum to 100 up to three rounding errors of at most 1/20 each. -/
lemma macros_percent_sum (n : List (String × ℚ))
    (h : 1 ≤ dictGet n "protein_g" * 4 + dictGet n "carbohydrates_g" * 4 +
      dictGet n "total_fat_g" * 9) :
    |dictGet (calculate_macros n) "protein_percent" +
      dictGet (calculate_macros n) "carb_percent" +
      dictGet (calculate_macros n) "fat_percent" - 100| ≤ 1/5 := by
  rw [macros_protein_percent, macros_carb_percent, macros_fat_percent]
  set pc := dictGet n "protein_g" * 4 with hpc
  set cc := dictGet n "carbohydrates_g" * 4 with hcc
  set fc := dictGet n "total_fat_g" * 9 with hfc
  have hS : (0:ℚ) < pc + cc + fc := by linarith
  have hmax : max (pc + cc + fc) 1 = pc + cc + fc := max_eq_left h
  rw [hmax]
  set x1 := pc / (pc + cc + fc) * 100 with hx1
  set x2 := cc / (pc + cc + fc) * 100 with hx2
  set x3 := fc / (pc + cc + fc) * 100 with hx3
  have hsum : x1 + x2 + x3 = 100 := by
    rw [hx1, hx2, hx3]
    field_simp
    ring
  have hrw : round1 x1 + round1 x2 + round1 x3 - 100 =
      (round1 x1 - x1) + ((round1 x2 - x2) + (round1 x3 - x3)) := by
    rw [← hsum]; ring
  rw [hrw]
  refine le_trans (abs_add _ _) ?_
  refine le_trans (add_le_add le_rfl (abs_add _ _)) ?_
  linarith [round1_err x1, round1_err x2, round1_err x3]

/-- Counterexample for C5 as stated: the recipe `[vanilla_extract 1g]` has
positive total weight, yet its three macro percentages sum to 51.3, not
100 ± 0.2: the combined macro calories (≈ 0.514) fall below the `max(·, 1)`
denominator floor, so each percentage is computed against 1 instead of the
true calorie sum. -/
theorem claim_C5_counterexample :
    0 < (calculate_snack_nutrition ingredient_database testScorer
        [⟨"vanilla_extract", 1⟩]).total_weight_g ∧
    ¬ |dictGet (calculate_snack_nutrition ingredient_database testScorer
          [⟨"vanilla_extract", 1⟩]).macros "protein_percent" +
        dictGet (calculate_snack_nutrition ingredient_database testScorer
          [⟨"vanilla_extract", 1⟩]).macros "carb_percent" +
        dictGet (calculate_snack_nutrition ingredient_database testScorer
          [⟨"vanilla_extract", 1⟩]).macros "fat_percent" - 100| ≤ 1/5 := by
  constructor
  · simp [calculate_snack_nutrition, processLines, processLine, ingredient_database,
      mkNutrition, mkProperties, List.lookup, lower_vanilla]
  · simp [calculate_snack_nutrition, processLines, processLine, ingredient_database,
      mkNutrition, mkProperties, List.lookup, lower_vanilla, calculate_macros,
      dictGet, dictAdd, nutrition_totals_init, round1, pyRoundInt]
    norm_num [Int.fract]
    rw [show |(487:ℚ)/10| = 487/10 from abs_of_nonneg (by norm_num)]
    norm_num

/-- C5 amended: whenever the total weight is positive and the three macro
calorie subtotals sum to at least 1 (so the `max(·, 1)` denominator floor
is inactive), the three returned macro percentages sum to 100 within the
0.2 rounding tolerance. -/
theorem claim_C5_amended (db : List (String × IngredientRecord))
    (scorer : List (String × ℚ) → HealthAnalysis) (lines : List RecipeLine)
    (hw : 0 < (calculate_snack_nutrition db scorer lines).total_weight_g)
    (hcal : 1 ≤ dictGet (calculate_snack_nutrition db scorer lines).macros "protein_calories" +
      dictGet (calculate_snack_nutrition db scorer lines).macros "carb_calories" +
      dictGet (calculate_snack_nutrition db scorer lines).macros "fat_calories") :
    |dictGet (calculate_snack_nutrition db scorer lines).macros "protein_percent" +
      dictGet (calculate_snack_nutrition db scorer lines).macros "carb_percent" +
      dictGet (calculate_snack_nutrition db scorer lines).macros "fat_percent" - 100| ≤ 1/5 := by
  by_cases h : lines = []
  · subst h
    exfalso
    revert hw
    simp [calculate_snack_nutrition, empty_nutrition]
  · have hmac : (calculate_snack_nutrition db scorer lines).macros =
        calculate_macros (calculate_snack_nutrition db scorer lines).nutrition_per_serving := by
      unfold calculate_snack_nutrition
      rw [if_neg h]
    rw [hmac] at hcal ⊢
    exact macros_percent_sum _ hcal

/-- Witness for the amended C5 at `[almonds 100g]` over the real catalog. -/
theorem claim_C5_witness :
    |dictGet (calculate_snack_nutrition ingredient_database testScorer
        [⟨"almonds", 100⟩]).macros "protein_percent" +
      dictGet (calculate_snack_nutrition ingredient_database testScorer
        [⟨"almonds", 100⟩]).macros "carb_percent" +
      dictGet (calculate_snack_nutrition ingredient_database testScorer
        [⟨"almonds", 100⟩]).macros "fat_percent" - 100| ≤ 1/5 :=
  claim_C5_amended ingredient_database testScorer [⟨"almonds", 100⟩]
    (by simp [calculate_snack_nutrition, processLines, processLine, ingredient_database,
      mkNutrition, mkProperties, List.lookup, lower_almonds])
    (by simp [calculate_snack_nutrition, processLines, processLine, ingredient_database,
      mkNutrition, mkProperties, List.lookup, lower_almonds, calculate_macros,
      dictGet, dictAdd, nutrition_totals_init]
        norm_num)

/-- Counterexample for C6 as stated: with the restriction `dairy_free`,
a candidate list containing `protein_powder_whey` (whose allergen set
contains `milk`) passes the filter untouched and the candidate is returned:
the source's restriction check has branches only for `vegan`,
`gluten_free`, `nut_free` and `low_sugar`, so `dairy_free` filters
nothing (the query here stands for any ingredient whose similar list
contains a milk candidate, `dark_chocolate_70` included). -/
theorem claim_C6_counterexample :
    (suggest_substitutions ingredient_database [("protein_powder_whey", 9/10)]
        ["dairy_free"]).map (fun s => s.name) = ["protein_powder_whey"] ∧
    (List.lookup "protein_powder_whey" ingredient_database).map
      (fun r => r.allergens.contains "milk") = some true := by
  constructor <;>
    simp [suggest_substitutions, restriction_skips, ingredient_database,
      List.lookup, mkNutrition, mkProperties, dictGet, List.filterMap]

/-- C6 amended: the recognized restrictions are `vegan` (excludes milk and
eggs), `gluten_free`, `nut_free` and `low_sugar`; `dairy_free` is not
recognized and excludes nothing.  Under `vegan`, for every candidate list
and every returned suggestion, the suggestion's catalog record never has
`milk` in its allergen set. -/
theorem claim_C6_amended (db : List (String × IngredientRecord))
    (similar : List (String × ℚ)) (restrictions : List String)
    (s : SubstitutionSuggestion) (hveg : "vegan" ∈ restrictions)
    (hs : s ∈ suggest_substitutions db similar restrictions) :
    (List.lookup s.name db).map (fun r => r.allergens.contains "milk") ≠ some true := by
  unfold suggest_substitutions at hs
  have hs2 := List.mem_of_mem_take hs
  rw [List.mem_filterMap] at hs2
  obtain ⟨p, hp, hf⟩ := hs2
  cases hl : List.lookup p.1 db with
  | none => rw [hl] at hf; simp at hf
  | some data =>
    rw [hl] at hf
    dsimp only at hf
    by_cases hskip : restrictions.any (restriction_skips data) = true
    · rw [if_pos hskip] at hf; cases hf
    · rw [if_neg hskip] at hf
      have hsp : s = ⟨p.1, p.2⟩ := (Option.some.inj hf).symm
      subst hsp
      dsimp only
      rw [hl]
      intro hcontra
      have hmilk : data.allergens.contains "milk" = true := Option.some.inj hcontra
      have hmem : "milk" ∈ data.allergens := by simpa using hmilk
      have hany := (Bool.not_eq_true _).mp hskip
      rw [List.any_eq_false] at hany
      have hveg2 := hany "vegan" hveg
      rw [show restriction_skips data "vegan" =
        data.allergens.any (fun a => a == "milk" || a == "eggs") from rfl] at hveg2
      apply hveg2
      rw [List.any_eq_true]
      exact ⟨"milk", hmem, by simp⟩

/-- Witness for the amended C6: requesting `vegan` substitutions from the
real catalog with candidate `almonds` returns it, and its record has no
milk allergen. -/
theorem claim_C6_witness :
    (List.lookup "almonds" ingredient_database).map
      (fun r => r.allergens.contains "milk") ≠ some true :=
  claim_C6_amended ingredient_database [("almonds", 1)] ["vegan"] ⟨"almonds", 1⟩
    (by simp)
    (by simp [suggest_substitutions, restriction_skips, ingredient_database,
      List.lookup, mkNutrition, mkProperties, dictGet, List.filterMap])

/-- Counterexample for C7 as stated: on a nutrition result with health
score 50 and an empty goal list, `_fallback_improvements` produces zero
suggested changes yet returns `estimated_new_score = 60`, while the claimed
formula `min(current + 5 * num_suggestions, 100)` gives 50. -/
theorem claim_C7_counterexample :
    (fallback_improvements { empty_nutrition with health_score := 50 } []).suggested_changes.length = 0 ∧
    (fallback_improvements { empty_nutrition with health_score := 50 } []).estimated_new_score = 60 ∧
    (60 : ℚ) ≠ min ((50 : ℚ) + 5 * 0) 100 := by
  refine ⟨rfl, ?_, ?_⟩
  · show min ((50:ℚ) + 10) 100 = 60
    norm_num
  · rw [show min ((50:ℚ) + 5 * 0) 100 = 50 by norm_num]
    norm_num

/-- C7 amended: when no AI collaborator is used, the recipe-improvement
fallback returns `estimated_new_score = min(current health score + 10, 100)`
— a flat increment of 10, independent of the goal list and hence of the
number of suggested changes. -/
theorem claim_C7_amended (nutrition : NutritionResult) (goals goals2 : List String) :
    (fallback_improvements nutrition goals).estimated_new_score =
      min (nutrition.health_score + 10) 100 ∧
    (fallback_improvements nutrition goals).estimated_new_score =
      (fallback_improvements nutrition goals2).estimated_new_score :=
  ⟨rfl, rfl⟩

/-- C8: for every input nutrition mapping, `predict_health_score` builds
the feature vector over the fixed 20-name order, substituting for each
absent feature exactly the documented default — 50, 20, 3, 0, 0, 0, 0.5,
0.5 for the eight quality features and 0 for the twelve core nutrition
fields (`specFeatureDefault` transcribes the claimed table; the code uses
its own `defaults` dict with fallback 0). -/
theorem claim_C8 (nutrition_data : List (String × ℚ)) :
    feature_names.length = 20 ∧
    build_feature_vector nutrition_data =
      feature_names.map (fun n =>
        (List.lookup n nutrition_data).getD (specFeatureDefault n)) := by
  refine ⟨rfl, ?_⟩
  unfold build_feature_vector
  apply List.map_congr_left
  intro n hn
  have hd : (List.lookup n feature_defaults).getD 0 = specFeatureDefault n := by
    fin_cases hn <;> rfl
  cases hL : List.lookup n nutrition_data with
  | none => simp [hL, hd]
  | some v => simp [hL]

lemma lookup_map_mul (k : String) (m : ℚ) (l : List (String × ℚ)) :
    List.lookup k (l.map (fun p => (p.1, p.2 * m))) = (List.lookup k l).map (fun x => x * m) := by
  induction l with
  | nil => rfl
  | cons a rest ih =>
    simp only [List.map_cons, List.lookup]
    cases k == a.1 <;> simp [ih]

/-- The glycemic-load contribution of the breakdown entry built from a found
catalog record: its own glycemic index (default 50) times its own absolute
carb contribution (default 0), over 100. -/
lemma glTerm_entry (data : IngredientRecord) (name : String) (a : ℚ) :
    glTerm { name := name, amount_g := a,
             nutrition := data.nutrition.map (fun p => (p.1, p.2 * (a / 100))),
             properties := data.properties, category := data.category } =
      dictGetD data.properties "glycemic_index" 50 *
        (dictGetD data.nutrition "carbohydrates_g" 0 * (a / 100)) / 100 := by
  unfold glTerm dictGetD
  dsimp only
  rw [lookup_map_mul "carbohydrates_g" (a / 100) data.nutrition]
  cases List.lookup "carbohydrates_g" data.nutrition with
  | none => simp
  | some v => simp

/-- C9: over any database whose records carry non-negative glycemic indices
and carb values (the catalog invariant), increasing the `amount_g` of any
single line — holding every other line fixed — never decreases the returned
`glycemic_load`: the rounded sum of `gi_i * carb_contribution_i / 100` over
found lines is monotone in each amount. -/
theorem claim_C9 (db : List (String × IngredientRecord))
    (scorer : List (String × ℚ) → HealthAnalysis)
    (pre post : List RecipeLine) (line : RecipeLine) (δ : ℚ) (hδ : 0 ≤ δ)
    (hdb : ∀ p ∈ db, 0 ≤ dictGetD p.2.properties "glycemic_index" 50 ∧
      0 ≤ dictGetD p.2.nutrition "carbohydrates_g" 0) :
    (calculate_snack_nutrition db scorer (pre ++ line :: post)).glycemic_load ≤
      (calculate_snack_nutrition db scorer
        (pre ++ { line with amount_g := line.amount_g + δ } :: post)).glycemic_load := by
  have h1 : pre ++ line :: post ≠ [] := by cases pre <;> simp
  have h2 : pre ++ { line with amount_g := line.amount_g + δ } :: post ≠ [] := by
    cases pre <;> simp
  have hgl : ∀ ls : List RecipeLine, ls ≠ [] →
      (calculate_snack_nutrition db scorer ls).glycemic_load =
        round1 (((ls.filterMap (entryOf db)).map glTerm).sum) := by
    intro ls hne
    unfold calculate_snack_nutrition
    rw [if_neg hne]
    dsimp only
    rw [calculate_glycemic_load_eq, processLines_details]
    simp
  rw [hgl _ h1, hgl _ h2]
  apply round1_mono
  rw [List.filterMap_append, List.filterMap_append]
  cases hl : List.lookup line.name.toLower db with
  | none =>
    have e1 : entryOf db line = none := by
      unfold entryOf; rw [hl]; rfl
    have e2 : entryOf db { line with amount_g := line.amount_g + δ } = none := by
      unfold entryOf
      show (List.lookup line.name.toLower db).map _ = none
      rw [hl]; rfl
    rw [List.filterMap_cons_none e1, List.filterMap_cons_none e2]
  | some data =>
    have e1 : entryOf db line = some
        { name := line.name.toLower, amount_g := line.amount_g,
          nutrition := data.nutrition.map (fun p => (p.1, p.2 * (line.amount_g / 100))),
          properties := data.properties, category := data.category } := by
      unfold entryOf; rw [hl]; rfl
    have e2 : entryOf db { line with amount_g := line.amount_g + δ } = some
        { name := line.name.toLower, amount_g := line.amount_g + δ,
          nutrition := data.nutrition.map
            (fun p => (p.1, p.2 * ((line.amount_g + δ) / 100))),
          properties := data.properties, category := data.category } := by
      unfold entryOf
      show (List.lookup line.name.toLower db).map _ = _
      rw [hl]; rfl
    rw [List.filterMap_cons_some e1, List.filterMap_cons_some e2]
    simp only [List.map_append, List.map_cons, List.sum_append, List.sum_cons]
    obtain ⟨pdb, hpdb, hpd2⟩ := lookup_some_mem hl
    have hnn := hdb pdb hpdb
    rw [hpd2] at hnn
    have hc : 0 ≤ dictGetD data.properties "glycemic_index" 50 *
        dictGetD data.nutrition "carbohydrates_g" 0 / 10000 :=
      div_nonneg (mul_nonneg hnn.1 hnn.2) (by norm_num)
    refine add_le_add le_rfl (add_le_add ?_ le_rfl)
    rw [glTerm_entry, glTerm_entry]
    have hr1 : dictGetD data.properties "glycemic_index" 50 *
        (dictGetD data.nutrition "carbohydrates_g" 0 * (line.amount_g / 100)) / 100 =
        dictGetD data.properties "glycemic_index" 50 *
          dictGetD data.nutrition "carbohydrates_g" 0 / 10000 * line.amount_g := by
      ring
    have hr2 : dictGetD data.properties "glycemic_index" 50 *
        (dictGetD data.nutrition "carbohydrates_g" 0 * ((line.amount_g + δ) / 100)) / 100 =
        dictGetD data.properties "glycemic_index" 50 *
          dictGetD data.nutrition "carbohydrates_g" 0 / 10000 * (line.amount_g + δ) := by
      ring
    rw [hr1, hr2]
    exact mul_le_mul_of_nonneg_left (by linarith) hc

/-- Witness for C9 over the real catalog: raising the oats line from 50g to
60g does not decrease the glycemic load (the catalog non-negativity
hypothesis is checked record by record). -/
theorem claim_C9_witness :
    (calculate_snack_nutrition ingredient_database testScorer
        [⟨"oats", 50⟩]).glycemic_load ≤
      (calculate_snack_nutrition ingredient_database testScorer
        [⟨"oats", 50 + 10⟩]).glycemic_load :=
  claim_C9 ingredient_database testScorer [] [] ⟨"oats", 50⟩ 10 (by norm_num)
    (by
      intro p hp
      fin_cases hp <;> constructor <;>
        (simp [dictGetD, List.lookup, mkProperties, mkNutrition]; try norm_num))

/-- A breakdown entry over an incomplete catalog record: no
`glycemic_index` property and no `carbohydrates_g` value. -/
def mysteryEntry : BreakdownEntry :=
  { name := "mystery", amount_g := 30, nutrition := [], properties := [], category := "other" }

/-- C10: in `_calculate_glycemic_load`, an entry whose record lacks the
`glycemic_index` property contributes exactly as if that property were 50
(the default moderate GI), and an entry whose nutrition lacks
`carbohydrates_g` contributes nothing at all; the function is total, so the
glycemic load is defined for every recipe even over incomplete catalog
records. -/
theorem claim_C10 (pre post : List BreakdownEntry) (e : BreakdownEntry) (tw : ℚ) :
    (List.lookup "glycemic_index" e.properties = none →
      calculate_glycemic_load (pre ++ e :: post) tw =
        calculate_glycemic_load
          (pre ++ { e with properties := e.properties ++ [("glycemic_index", 50)] } :: post) tw) ∧
    (List.lookup "carbohydrates_g" e.nutrition = none →
      calculate_glycemic_load (pre ++ e :: post) tw =
        calculate_glycemic_load (pre ++ post) tw) := by
  constructor
  · intro h
    rw [calculate_glycemic_load_eq, calculate_glycemic_load_eq]
    have hterm : glTerm { e with properties := e.properties ++ [("glycemic_index", 50)] } =
        glTerm e := by
      unfold glTerm dictGetD
      dsimp only
      rw [lookup_append_of_none _ h, h]
      rfl
    simp only [List.map_append, List.sum_append, List.map_cons, List.sum_cons, hterm]
  · intro h
    rw [calculate_glycemic_load_eq, calculate_glycemic_load_eq]
    have hzero : glTerm e = 0 := by
      unfold glTerm dictGetD
      rw [h]
      simp
    simp only [List.map_append, List.sum_append, List.map_cons, List.sum_cons, hzero]
    rw [zero_add]

/-- Witness for C10 at `mysteryEntry`, which lacks both keys: adding the
default GI of 50 leaves the load unchanged, and so does dropping the entry
(its missing carbs count as 0). -/
theorem claim_C10_witness :
    (calculate_glycemic_load ([] ++ mysteryEntry :: []) 30 =
      calculate_glycemic_load
        ([] ++ { mysteryEntry with
                  properties := mysteryEntry.properties ++ [("glycemic_index", 50)] } :: []) 30) ∧
    (calculate_glycemic_load ([] ++ mysteryEntry :: []) 30 =
      calculate_glycemic_load ([] ++ []) 30) :=
  ⟨(claim_C10 [] [] mysteryEntry 30).1 rfl, (claim_C10 [] [] mysteryEntry 30).2 rfl⟩
